import Mathlib

/-!
Verification development for the `mmi-task-manager` core
(`src/core/task/models.py`, `src/core/task/services.py`,
`src/core/task/manager.py`).

The Python code is shallowly embedded:
* `datetime` values become `Nat` timestamps (only equality and order are used);
* the MongoDB collection becomes a `List Doc` of stored documents, in which a
  missing field of a document is `none`;
* raised exceptions become `Except Err` results, and operations that may have
  already written to the collection before raising return the final collection
  alongside the `Except` result;
* nondeterministic inputs (`uuid4()`, `datetime.utcnow()`) become explicit
  parameters (`id`/`idGen`, `now`).
-/

namespace TaskManagerModel

/-- Model of Python `str.strip()` on the character list: drop whitespace from
both ends. -/
def stripChars (l : List Char) : List Char :=
  ((l.dropWhile Char.isWhitespace).reverse.dropWhile Char.isWhitespace).reverse

/-- Model of Python `s.strip()`. -/
def pyStrip (s : String) : String :=
  (stripChars s.toList).asString

/-- `PriorityLevel(StrEnum)` from `models.py`: LOW/MEDIUM/HIGH. -/
inductive PriorityLevel
  | low
  | medium
  | high
deriving DecidableEq

/-- `.value` of the `PriorityLevel` enum member. -/
def PriorityLevel.value : PriorityLevel → String
  | .low => "low"
  | .medium => "medium"
  | .high => "high"

/-- The `PriorityLevel(s)` enum constructor: `none` models the `ValueError`
raised on a string outside the enumerated values. -/
def PriorityLevel.ofValue? (s : String) : Option PriorityLevel :=
  if s = "low" then some .low
  else if s = "medium" then some .medium
  else if s = "high" then some .high
  else none

/-- `Status(StrEnum)` from `models.py`: PENDING/IN_PROGRESS/COMPLETED. -/
inductive Status
  | pending
  | in_progress
  | completed
deriving DecidableEq

/-- `.value` of the `Status` enum member. -/
def Status.value : Status → String
  | .pending => "pending"
  | .in_progress => "in_progress"
  | .completed => "completed"

/-- The `Status(s)` enum constructor: `none` models the `ValueError` raised on
a string outside the enumerated values. -/
def Status.ofValue? (s : String) : Option Status :=
  if s = "pending" then some .pending
  else if s = "in_progress" then some .in_progress
  else if s = "completed" then some .completed
  else none

/-- The exceptions that can escape the embedded operations.
`validation` is `TaskValidationError`, `notFound` is `TaskNotFoundError`,
`valueError` is Python's `ValueError` from an enum constructor. -/
inductive Err
  | validation
  | notFound
  | valueError
deriving DecidableEq

/-- The `Task` object of `models.py` (its private `_x` fields). -/
structure Task where
  id : String
  title : String
  description : String
  due_date : Option Nat
  priority_level : PriorityLevel
  status : Status
  created_at : Nat
deriving DecidableEq

/-- The `title` setter: `value = (value or "").strip()`, raise
`TaskValidationError` when empty, else assign. -/
def Task.setTitle (t : Task) (value : String) : Except Err Task :=
  let v := pyStrip value
  if v = "" then .error .validation else .ok { t with title := v }

/-- The `description` setter: assign `(value or "").strip()`. -/
def Task.setDescription (t : Task) (value : String) : Task :=
  { t with description := pyStrip value }

/-- `Task.__init__`: the field initialisers followed by the property
assignments, of which only the `title` setter can fail.  The generated
`uuid4()` and `utcnow()` defaults are supplied by the caller as the explicit
`id` and `created_at` arguments. -/
def Task.init (id : String) (title : String) (description : String)
    (due_date : Option Nat) (priority_level : PriorityLevel) (status : Status)
    (created_at : Nat) : Except Err Task :=
  let t0 : Task :=
    { id := id, title := "", description := "", due_date := none,
      priority_level := .medium, status := .pending, created_at := created_at }
  match t0.setTitle title with
  | .error e => .error e
  | .ok t1 =>
      let t2 := t1.setDescription description
      .ok { t2 with due_date := due_date, priority_level := priority_level,
                    status := status }

/-- Every `Task` object reachable through the Python constructors/setters has
a trimmed non-empty title and a trimmed description. -/
def Task.Valid (t : Task) : Prop :=
  pyStrip t.title = t.title ∧ t.title ≠ "" ∧ pyStrip t.description = t.description

/-- A stored MongoDB document.  `_id` and `title` are the fields the
deserializer reads unconditionally; the remaining fields are optional
(`none` = field absent; for `due_date` also a stored null). -/
structure Doc where
  id : String
  title : String
  description : Option String
  due_date : Option Nat
  priority_level : Option String
  status : Option String
  created_at : Option Nat
deriving DecidableEq

/-- `TaskService._serialize`. -/
def serialize (t : Task) : Doc :=
  { id := t.id, title := t.title, description := some t.description,
    due_date := t.due_date, priority_level := some t.priority_level.value,
    status := some t.status.value, created_at := some t.created_at }

/-- `TaskService._deserialize`.  The argument expressions are evaluated
first (so an enum `ValueError` precedes the constructor's title check), then
`Task.__init__` runs.  `now` stands for the `datetime.utcnow()` default. -/
def deserialize (now : Nat) (d : Doc) : Except Err Task :=
  match PriorityLevel.ofValue? (d.priority_level.getD PriorityLevel.medium.value) with
  | none => .error .valueError
  | some pl =>
      match Status.ofValue? (d.status.getD Status.pending.value) with
      | none => .error .valueError
      | some st =>
          Task.init d.id d.title (d.description.getD "") d.due_date pl st
            (d.created_at.getD now)

/-- A document on which `_deserialize` succeeds: the title trims non-empty
and the enum fields (defaulted when absent) parse. -/
def Doc.Deserializable (d : Doc) : Prop :=
  pyStrip d.title ≠ "" ∧
  (PriorityLevel.ofValue? (d.priority_level.getD PriorityLevel.medium.value)).isSome ∧
  (Status.ofValue? (d.status.getD Status.pending.value)).isSome

instance (d : Doc) : Decidable d.Deserializable := by
  unfold Doc.Deserializable; infer_instance

/-! ## The service layer (`services.py`), over `List Doc` as the collection -/

/-- `TaskService.create_task`: `insert_one(_serialize(task))`, return the
task. -/
def svc_create_task (store : List Doc) (t : Task) : Task × List Doc :=
  (t, store ++ [serialize t])

/-- `TaskService.create_tasks_bulk`: empty input returns `[]` without a store
round-trip; otherwise one unordered `insert_many` of all serialized docs. -/
def svc_create_tasks_bulk (store : List Doc) (tasks : List Task) :
    List Task × List Doc :=
  if tasks.isEmpty then (tasks, store)
  else (tasks, store ++ tasks.map serialize)

/-- `TaskService.get_task`: `find_one({"_id": task_id})` then deserialize. -/
def svc_get_task (now : Nat) (store : List Doc) (task_id : String) :
    Except Err (Option Task) :=
  match store.find? (fun d => d.id == task_id) with
  | none => .ok none
  | some d => (deserialize now d).map some

/-- The equality-filter document built by `TaskService.list_tasks` (keys
`status`, `priority_level`, `due_date`; a key is present only when the
criterion was supplied). -/
structure Query where
  status : Option String
  priority_level : Option String
  due_date : Option Nat

/-- The `query` dict of `TaskService.list_tasks`. -/
def buildQuery (status : Option Status) (priority : Option PriorityLevel)
    (due_date : Option Nat) : Query :=
  { status := status.map Status.value,
    priority_level := priority.map PriorityLevel.value,
    due_date := due_date }

/-- MongoDB exact-equality matching of a document against the filter: each
present key must equal the document's (present) field. -/
def docMatches (q : Query) (d : Doc) : Bool :=
  (match q.status with | none => true | some s => d.status == some s) &&
  (match q.priority_level with | none => true | some p => d.priority_level == some p) &&
  (match q.due_date with | none => true | some n => d.due_date == some n)

/-- The `created_at` ascending sort key used by `.sort("created_at", 1)`:
a document missing the field sorts before every present value. -/
def docLe (a b : Doc) : Bool :=
  match a.created_at, b.created_at with
  | none, _ => true
  | some _, none => false
  | some x, some y => x ≤ y

/-- `docLe` as the sorting relation. -/
def docLeP (a b : Doc) : Prop := docLe a b = true

instance : DecidableRel docLeP := fun a b => instDecidableEqBool (docLe a b) true

instance : IsTotal Doc docLeP := by
  constructor; intro a b; unfold docLeP docLe
  cases a.created_at <;> cases b.created_at <;> simp [Nat.le_total]

instance : IsTrans Doc docLeP := by
  constructor; intro a b c; unfold docLeP docLe
  cases a.created_at <;> cases b.created_at <;> cases c.created_at <;> simp_all
  all_goals omega

/-- The list comprehension `[self._deserialize(doc) for doc in cursor]`:
deserialize in order, raising on the first bad document. -/
def deserializeAll (now : Nat) : List Doc → Except Err (List Task)
  | [] => .ok []
  | d :: ds =>
      match deserialize now d with
      | .error e => .error e
      | .ok t =>
          match deserializeAll now ds with
          | .error e => .error e
          | .ok ts => .ok (t :: ts)

/-- `TaskService.list_tasks`: filter by the built query, sort ascending by
`created_at`, deserialize every result. -/
def svc_list_tasks (now : Nat) (store : List Doc) (status : Option Status)
    (priority : Option PriorityLevel) (due_date : Option Nat) :
    Except Err (List Task) :=
  let q := buildQuery status priority due_date
  deserializeAll now (List.insertionSort docLeP (store.filter (docMatches q)))

/-- The `updates` dict of `TaskService.update_task` (keys `title`,
`description`, `due_date`, `priority_level`, `status`, each present only when
the argument was supplied). -/
structure Updates where
  title : Option String
  description : Option String
  due_date : Option Nat
  priority_level : Option String
  status : Option String

/-- Building the `updates` dict from the service arguments. -/
def buildUpdates (title description : Option String) (due_date : Option Nat)
    (priority_level : Option PriorityLevel) (status : Option Status) : Updates :=
  { title := title, description := description, due_date := due_date,
    priority_level := priority_level.map PriorityLevel.value,
    status := status.map Status.value }

/-- `if not updates` — the dict is empty. -/
def Updates.isEmpty (u : Updates) : Bool :=
  u.title.isNone && u.description.isNone && u.due_date.isNone &&
  u.priority_level.isNone && u.status.isNone

/-- The effect of `{"$set": updates}` on one document: each present update
key overwrites (or adds) that field; no other field is touched. -/
def applySet (u : Updates) (d : Doc) : Doc :=
  { d with
    title := u.title.getD d.title,
    description := match u.description with | none => d.description | some v => some v,
    due_date := match u.due_date with | none => d.due_date | some v => some v,
    priority_level :=
      match u.priority_level with | none => d.priority_level | some v => some v,
    status := match u.status with | none => d.status | some v => some v }

/-- `find_one_and_update({"_id": task_id}, {"$set": updates}, AFTER)`:
update the first matching document and return its post-image. -/
def find_one_and_update (task_id : String) (u : Updates) :
    List Doc → Option Doc × List Doc
  | [] => (none, [])
  | d :: ds =>
      if d.id == task_id then (some (applySet u d), applySet u d :: ds)
      else
        let r := find_one_and_update task_id u ds
        (r.1, d :: r.2)

/-- `TaskService.update_task`: build the updates dict; empty means a plain
`get_task` (storage untouched); otherwise find-and-update and deserialize the
post-image.  The final collection is returned alongside the result, because
the write has happened even when deserializing the post-image raises. -/
def svc_update_task (now : Nat) (store : List Doc) (task_id : String)
    (title description : Option String) (due_date : Option Nat)
    (priority_level : Option PriorityLevel) (status : Option Status) :
    Except Err (Option Task) × List Doc :=
  let u := buildUpdates title description due_date priority_level status
  if u.isEmpty then (svc_get_task now store task_id, store)
  else
    match find_one_and_update task_id u store with
    | (none, store') => (.ok none, store')
    | (some d, store') => ((deserialize now d).map some, store')

/-- `TaskService.delete_task`: `delete_one({"_id": task_id})`, true iff a
record was removed. -/
def svc_delete_task (store : List Doc) (task_id : String) : Bool × List Doc :=
  match store.find? (fun d => d.id == task_id) with
  | none => (false, store)
  | some _ => (true, store.eraseP (fun d => d.id == task_id))

/-! ## The manager layer (`manager.py`) -/

/-- One bulk payload dict consumed by `TaskManager.create_tasks_bulk`
(`none` = key absent). -/
structure Payload where
  title : Option String
  description : Option String
  due_date : Option Nat
  priority_level : Option PriorityLevel

/-- The validation/construction loop of `TaskManager.create_tasks_bulk`:
for the `k`-th payload, `(data.get("title") or "").strip()` must be
non-empty (else `TaskValidationError` aborts the whole batch), then a `Task`
is constructed with fresh id `idGen k` and `created_at = now`. -/
def buildBulkTasks (idGen : Nat → String) (now : Nat) :
    List Payload → Nat → Except Err (List Task)
  | [], _ => .ok []
  | p :: ps, k =>
      let title := pyStrip (p.title.getD "")
      if title = "" then .error .validation
      else
        match Task.init (idGen k) title (p.description.getD "") p.due_date
            (p.priority_level.getD .medium) .pending now with
        | .error e => .error e
        | .ok task =>
            match buildBulkTasks idGen now ps (k + 1) with
            | .error e => .error e
            | .ok rest => .ok (task :: rest)

/-- `TaskManager.create_task`: construct (may raise validation) then
persist. -/
def mgr_create_task (freshId : String) (now : Nat) (store : List Doc)
    (title description : String) (due_date : Option Nat)
    (priority_level : PriorityLevel) : Except Err Task × List Doc :=
  match Task.init freshId title description due_date priority_level .pending now with
  | .error e => (.error e, store)
  | .ok task =>
      let r := svc_create_task store task
      (.ok r.1, r.2)

/-- `TaskManager.create_tasks_bulk`: validate and construct every task first;
only when all succeed is the single bulk-insert store call made. -/
def mgr_create_tasks_bulk (idGen : Nat → String) (now : Nat) (store : List Doc)
    (payloads : List Payload) : Except Err (List Task) × List Doc :=
  match buildBulkTasks idGen now payloads 0 with
  | .error e => (.error e, store)
  | .ok tasks =>
      let r := svc_create_tasks_bulk store tasks
      (.ok r.1, r.2)

/-- `TaskManager.get_task`: fetch or raise `TaskNotFoundError`. -/
def mgr_get_task (now : Nat) (store : List Doc) (task_id : String) :
    Except Err Task :=
  match svc_get_task now store task_id with
  | .error e => .error e
  | .ok none => .error .notFound
  | .ok (some t) => .ok t

/-- `TaskManager.list_tasks`: pass-through to the service. -/
def mgr_list_tasks (now : Nat) (store : List Doc) (status : Option Status)
    (priority : Option PriorityLevel) (due_date : Option Nat) :
    Except Err (List Task) :=
  svc_list_tasks now store status priority due_date

/-- The in-memory validation block of `TaskManager.update_task`: set each
supplied field on the fetched task, in source order; only the title setter
can fail.  The mutated copy is discarded by the caller. -/
def applySetters (t : Task) (title description : Option String)
    (due_date : Option Nat) (priority_level : Option PriorityLevel)
    (status : Option Status) : Except Err Task :=
  match (match title with
         | none => Except.ok t
         | some v => t.setTitle v) with
  | .error e => .error e
  | .ok t1 =>
      let t2 := match description with
                | none => t1
                | some v => t1.setDescription v
      let t3 := match due_date with
                | none => t2
                | some v => { t2 with due_date := some v }
      let t4 := match priority_level with
                | none => t3
                | some v => { t3 with priority_level := v }
      let t5 := match status with
                | none => t4
                | some v => { t4 with status := v }
      .ok t5

/-- `TaskManager.update_task`: fetch (NotFound if absent), validate on the
fetched in-memory copy, then issue the persisted update with the same field
set; NotFound again if the record vanished before the write. -/
def mgr_update_task (now : Nat) (store : List Doc) (task_id : String)
    (title description : Option String) (due_date : Option Nat)
    (priority_level : Option PriorityLevel) (status : Option Status) :
    Except Err Task × List Doc :=
  match svc_get_task now store task_id with
  | .error e => (.error e, store)
  | .ok none => (.error .notFound, store)
  | .ok (some task) =>
      match applySetters task title description due_date priority_level status with
      | .error e => (.error e, store)
      | .ok _ =>
          match svc_update_task now store task_id title description due_date
              priority_level status with
          | (.error e, store') => (.error e, store')
          | (.ok none, store') => (.error .notFound, store')
          | (.ok (some updated), store') => (.ok updated, store')

/-- `TaskManager.complete_task`: `service.update_task(task_id,
status=COMPLETED)`, NotFound when it returns no record. -/
def mgr_complete_task (now : Nat) (store : List Doc) (task_id : String) :
    Except Err Task × List Doc :=
  match svc_update_task now store task_id none none none none (some .completed) with
  | (.error e, store') => (.error e, store')
  | (.ok none, store') => (.error .notFound, store')
  | (.ok (some updated), store') => (.ok updated, store')

/-- `TaskManager.delete_task`: NotFound when nothing was deleted. -/
def mgr_delete_task (store : List Doc) (task_id : String) :
    Except Err Unit × List Doc :=
  match svc_delete_task store task_id with
  | (false, store') => (.error .notFound, store')
  | (true, store') => (.ok (), store')

/-! ## Helper lemmas -/

lemma head?_dropWhile_eq_false {α : Type} {p : α → Bool} {l : List α} {a : α}
    (h : (l.dropWhile p).head? = some a) : p a = false := by
  have hh := List.head?_dropWhile_not p l
  rw [h] at hh
  exact hh

lemma dropWhile_eq_self_of_head? {α : Type} {p : α → Bool} {l : List α}
    (h : ∀ a, l.head? = some a → p a = false) : l.dropWhile p = l := by
  cases l with
  | nil => rfl
  | cons a l => exact List.dropWhile_cons_of_neg (by simp [h a rfl])

lemma stripChars_idem (l : List Char) : stripChars (stripChars l) = stripChars l := by
  unfold stripChars
  set m := l.dropWhile Char.isWhitespace with hm
  set r := m.reverse.dropWhile Char.isWhitespace with hr
  have h1 : r.reverse.dropWhile Char.isWhitespace = r.reverse := by
    apply dropWhile_eq_self_of_head?
    intro a ha
    have hsuf : r <:+ m.reverse := hr ▸ List.dropWhile_suffix _
    have hpre : r.reverse <+: m := by
      have h2 := List.reverse_prefix.mpr hsuf
      simpa using h2
    obtain ⟨t, ht⟩ := hpre
    have hma : m.head? = some a := by
      rw [← ht, List.head?_append, ha]
      rfl
    exact head?_dropWhile_eq_false (hm ▸ hma)
  rw [h1, List.reverse_reverse]
  have h2 : r.dropWhile Char.isWhitespace = r := by
    apply dropWhile_eq_self_of_head?
    intro a ha
    exact head?_dropWhile_eq_false (hr ▸ ha)
  rw [h2]

/-- Python's `strip` is idempotent. -/
lemma pyStrip_idem (s : String) : pyStrip (pyStrip s) = pyStrip s := by
  show (stripChars (List.asString (stripChars s.toList)).toList).asString = _
  rw [show (List.asString (stripChars s.toList)).toList = stripChars s.toList from rfl,
    stripChars_idem]
  rfl

/-- `Task.__init__` on a title that trims non-empty. -/
lemma Task.init_ok {title : String} (h : pyStrip title ≠ "")
    (id descr : String) (dd : Option Nat) (pl : PriorityLevel) (st : Status)
    (ca : Nat) :
    Task.init id title descr dd pl st ca =
      .ok { id := id, title := pyStrip title, description := pyStrip descr,
            due_date := dd, priority_level := pl, status := st,
            created_at := ca } := by
  unfold Task.init Task.setTitle Task.setDescription
  simp [h]

/-- `Task.__init__` on a title that trims empty. -/
lemma Task.init_error {title : String} (h : pyStrip title = "")
    (id descr : String) (dd : Option Nat) (pl : PriorityLevel) (st : Status)
    (ca : Nat) :
    Task.init id title descr dd pl st ca = .error .validation := by
  unfold Task.init Task.setTitle
  simp [h]

/-- `_deserialize` on a deserializable document. -/
lemma deserialize_ok {d : Doc} (hd : d.Deserializable) (now : Nat) :
    ∃ pl st,
      PriorityLevel.ofValue? (d.priority_level.getD PriorityLevel.medium.value)
        = some pl ∧
      Status.ofValue? (d.status.getD Status.pending.value) = some st ∧
      deserialize now d =
        .ok { id := d.id, title := pyStrip d.title,
              description := pyStrip (d.description.getD ""),
              due_date := d.due_date, priority_level := pl, status := st,
              created_at := d.created_at.getD now } := by
  obtain ⟨ht, hpl, hst⟩ := hd
  obtain ⟨pl, hpl⟩ := Option.isSome_iff_exists.mp hpl
  obtain ⟨st, hst⟩ := Option.isSome_iff_exists.mp hst
  refine ⟨pl, st, hpl, hst, ?_⟩
  unfold deserialize
  rw [hpl, hst]
  exact Task.init_ok ht _ _ _ _ _ _

lemma priority_ofValue_value (p : PriorityLevel) :
    PriorityLevel.ofValue? p.value = some p := by
  cases p <;> rfl

lemma status_ofValue_value (s : Status) : Status.ofValue? s.value = some s := by
  cases s <;> rfl

/-! ## The claims -/

/-- C1: a title that trims non-empty makes `Task.__init__` succeed with the
trimmed title; a title that trims empty makes both `Task.__init__` and the
`title` setter raise `TaskValidationError`, and the failing setter produces
no updated task (the task is left unchanged). -/
theorem C1_title_validation (title : String) :
    (pyStrip title ≠ "" →
      ∀ id descr dd pl st ca, ∃ t : Task,
        Task.init id title descr dd pl st ca = .ok t ∧ t.title = pyStrip title) ∧
    (pyStrip title = "" →
      (∀ id descr dd pl st ca,
        Task.init id title descr dd pl st ca = .error .validation) ∧
      (∀ t : Task, t.setTitle title = .error .validation)) := by
  constructor
  · intro h id descr dd pl st ca
    exact ⟨_, Task.init_ok h id descr dd pl st ca, rfl⟩
  · intro h
    refine ⟨fun id descr dd pl st ca => Task.init_error h id descr dd pl st ca,
      fun t => ?_⟩
    unfold Task.setTitle
    simp [h]

theorem C1_title_validation_witness :
    (∃ t : Task, Task.init "i" "  hi " "" none .medium .pending 0 = .ok t ∧
      t.title = pyStrip "  hi ") ∧
    Task.init "i" " \t " "" none .medium .pending 0 = .error .validation ∧
    Task.setTitle
      { id := "i", title := "x", description := "", due_date := none,
        priority_level := .medium, status := .pending, created_at := 0 } " \t "
      = .error .validation :=
  ⟨(C1_title_validation "  hi ").1 (by decide) "i" "" none .medium .pending 0,
   ((C1_title_validation " \t ").2 (by decide)).1 "i" "" none .medium .pending 0,
   ((C1_title_validation " \t ").2 (by decide)).2 _⟩

/-- C2: serializing a constructible (hence valid) `Task` and deserializing
the resulting record yields a `Task` equal to the original in all seven
fields. -/
theorem C2_serialize_roundtrip (t : Task) (h : t.Valid) (now : Nat) :
    deserialize now (serialize t) = .ok t := by
  obtain ⟨ht1, htne, hd⟩ := h
  have htne' : pyStrip t.title ≠ "" := by rw [ht1]; exact htne
  show (match PriorityLevel.ofValue? t.priority_level.value with
    | none => Except.error Err.valueError
    | some pl =>
      match Status.ofValue? t.status.value with
      | none => Except.error Err.valueError
      | some st =>
        Task.init t.id t.title t.description t.due_date pl st t.created_at) = _
  rw [priority_ofValue_value, status_ofValue_value]
  show Task.init t.id t.title t.description t.due_date t.priority_level
    t.status t.created_at = _
  rw [Task.init_ok htne', ht1, hd]

theorem C2_serialize_roundtrip_witness :
    deserialize 7
      (serialize
        { id := "a", title := "write report", description := "soon",
          due_date := some 3, priority_level := .high, status := .in_progress,
          created_at := 5 }) =
      .ok { id := "a", title := "write report", description := "soon",
            due_date := some 3, priority_level := .high, status := .in_progress,
            created_at := 5 } :=
  C2_serialize_roundtrip _ (by constructor <;> decide) 7

/-- C3 counterexample: the claim says read operations never raise
ValidationError from storage state, but on a store holding a record whose
title is whitespace-only, both `get_task` and `list_tasks` raise
`TaskValidationError` (deserialization runs the `Task` constructor, which
re-runs title validation). -/
theorem C3_counterexample :
    mgr_get_task 0
      [{ id := "a", title := " ", description := none, due_date := none,
         priority_level := none, status := none, created_at := some 0 }] "a"
      = .error .validation ∧
    mgr_list_tasks 0
      [{ id := "a", title := " ", description := none, due_date := none,
         priority_level := none, status := none, created_at := some 0 }]
      none none none
      = .error .validation := by
  constructor <;> rfl

/-- C3 (amended): deserialization DOES re-run title validation through the
`Task` constructor, so ValidationError CAN be triggered by storage state: on
a stored record whose title is empty or whitespace-only (and whose enum
fields parse), `_deserialize` and `get_task` raise ValidationError; on a
record whose title trims non-empty, reads succeed and raise nothing. -/
theorem C3_deserialize_validation (now : Nat) (d : Doc)
    (hpl : (PriorityLevel.ofValue?
      (d.priority_level.getD PriorityLevel.medium.value)).isSome)
    (hst : (Status.ofValue? (d.status.getD Status.pending.value)).isSome) :
    (pyStrip d.title = "" →
      deserialize now d = .error .validation ∧
      svc_get_task now [d] d.id = .error .validation) ∧
    (pyStrip d.title ≠ "" →
      ∃ t, deserialize now d = .ok t ∧ svc_get_task now [d] d.id = .ok (some t)) := by
  constructor
  · intro h
    have hdes : deserialize now d = .error .validation := by
      obtain ⟨pl, hpl'⟩ := Option.isSome_iff_exists.mp hpl
      obtain ⟨st, hst'⟩ := Option.isSome_iff_exists.mp hst
      unfold deserialize
      rw [hpl', hst']
      exact Task.init_error h _ _ _ _ _ _
    refine ⟨hdes, ?_⟩
    unfold svc_get_task
    rw [List.find?_cons_of_pos _ (by simp)]
    show (deserialize now d).map some = _
    rw [hdes]
    rfl
  · intro h
    obtain ⟨pl, st, _, _, hdes⟩ := deserialize_ok ⟨h, hpl, hst⟩ now
    refine ⟨_, hdes, ?_⟩
    unfold svc_get_task
    rw [List.find?_cons_of_pos _ (by simp)]
    show (deserialize now d).map some = _
    rw [hdes]
    rfl

theorem C3_deserialize_validation_witness :
    deserialize 0
      { id := "a", title := "  ", description := none, due_date := none,
        priority_level := none, status := none, created_at := some 0 }
      = .error .validation ∧
    svc_get_task 0
      [{ id := "a", title := "  ", description := none, due_date := none,
         priority_level := none, status := none, created_at := some 0 }] "a"
      = .error .validation :=
  (C3_deserialize_validation 0
    { id := "a", title := "  ", description := none, due_date := none,
      priority_level := none, status := none, created_at := some 0 }
    (by decide) (by decide)).1 (by decide)

/-- The bulk construction loop fails with `TaskValidationError` as soon as
some payload's title is missing or trims empty. -/
lemma buildBulkTasks_error {ps : List Payload}
    (h : ∃ p ∈ ps, pyStrip (p.title.getD "") = "") (idGen : Nat → String)
    (now : Nat) : ∀ k, buildBulkTasks idGen now ps k = .error .validation := by
  induction ps with
  | nil => simp at h
  | cons p ps ih =>
    intro k
    obtain ⟨q, hq, hqe⟩ := h
    unfold buildBulkTasks
    rcases List.mem_cons.mp hq with rfl | hmem
    · simp [hqe]
    · by_cases hp : pyStrip (p.title.getD "") = ""
      · simp [hp]
      · rw [if_neg hp, Task.init_ok (by rw [pyStrip_idem]; exact hp),
          ih ⟨q, hmem, hqe⟩ (k + 1)]

/-- The bulk construction loop succeeds when every payload's title trims
non-empty. -/
lemma buildBulkTasks_ok {ps : List Payload}
    (h : ∀ p ∈ ps, pyStrip (p.title.getD "") ≠ "") (idGen : Nat → String)
    (now : Nat) : ∀ k, ∃ tasks, buildBulkTasks idGen now ps k = .ok tasks := by
  induction ps with
  | nil => exact fun k => ⟨[], rfl⟩
  | cons p ps ih =>
    intro k
    have hp := h p (List.mem_cons_self p ps)
    obtain ⟨rest, hrest⟩ := ih (fun q hq => h q (List.mem_cons_of_mem p hq)) (k + 1)
    refine ⟨{ id := idGen k, title := pyStrip (pyStrip (p.title.getD "")),
              description := pyStrip (p.description.getD ""),
              due_date := p.due_date,
              priority_level := p.priority_level.getD .medium,
              status := .pending, created_at := now } :: rest, ?_⟩
    unfold buildBulkTasks
    rw [if_neg hp, Task.init_ok (by rw [pyStrip_idem]; exact hp), hrest]

/-- C4: a bulk payload list with one missing/empty/whitespace-only title
makes `create_tasks_bulk` raise ValidationError with the store untouched
(zero records created); with all titles valid, every `Task` is constructed
first and one bulk insert appends all their serialized records. -/
theorem C4_bulk_all_or_nothing (idGen : Nat → String) (now : Nat)
    (store : List Doc) (ps : List Payload) :
    ((∃ p ∈ ps, pyStrip (p.title.getD "") = "") →
      mgr_create_tasks_bulk idGen now store ps = (.error .validation, store)) ∧
    ((∀ p ∈ ps, pyStrip (p.title.getD "") ≠ "") →
      ∃ tasks, buildBulkTasks idGen now ps 0 = .ok tasks ∧
        mgr_create_tasks_bulk idGen now store ps =
          (.ok tasks, store ++ tasks.map serialize)) := by
  constructor
  · intro h
    unfold mgr_create_tasks_bulk
    rw [buildBulkTasks_error h idGen now 0]
  · intro h
    obtain ⟨tasks, htasks⟩ := buildBulkTasks_ok h idGen now 0
    refine ⟨tasks, htasks, ?_⟩
    unfold mgr_create_tasks_bulk
    rw [htasks]
    unfold svc_create_tasks_bulk
    cases tasks with
    | nil => simp
    | cons t ts => simp

theorem C4_bulk_all_or_nothing_witness :
    mgr_create_tasks_bulk (fun _ => "i") 0 []
      [{ title := some "ok", description := none, due_date := none,
         priority_level := none },
       { title := some "  ", description := none, due_date := none,
         priority_level := none }]
      = (.error .validation, []) ∧
    ∃ tasks,
      buildBulkTasks (fun _ => "i") 0
        [{ title := some "ok", description := none, due_date := none,
           priority_level := none }] 0 = .ok tasks ∧
      mgr_create_tasks_bulk (fun _ => "i") 0 []
        [{ title := some "ok", description := none, due_date := none,
           priority_level := none }]
        = (.ok tasks, [] ++ tasks.map serialize) :=
  ⟨(C4_bulk_all_or_nothing (fun _ => "i") 0 []
      [{ title := some "ok", description := none, due_date := none,
         priority_level := none },
       { title := some "  ", description := none, due_date := none,
         priority_level := none }]).1 (by decide),
   (C4_bulk_all_or_nothing (fun _ => "i") 0 []
      [{ title := some "ok", description := none, due_date := none,
         priority_level := none }]).2 (by decide)⟩

/-- A successful `Task.__init__` records the supplied `created_at`. -/
lemma Task.init_created_at {id ti de : String} {dd : Option Nat}
    {pl : PriorityLevel} {st : Status} {ca : Nat} {t : Task}
    (h : Task.init id ti de dd pl st ca = .ok t) : t.created_at = ca := by
  by_cases hv : pyStrip ti = ""
  · rw [Task.init_error hv] at h
    exact absurd h (by simp)
  · rw [Task.init_ok hv] at h
    injection h with h'
    rw [← h']

/-- A successfully deserialized task carries the document's `created_at`
(or `now` when the field is absent). -/
lemma deserialize_created_at {now : Nat} {d : Doc} {t : Task}
    (h : deserialize now d = .ok t) : t.created_at = d.created_at.getD now := by
  unfold deserialize at h
  split at h
  · exact absurd h (by simp)
  · split at h
    · exact absurd h (by simp)
    · exact Task.init_created_at h

/-- `deserializeAll` succeeds on deserializable documents and relates them
pointwise to the produced tasks. -/
lemma deserializeAll_ok (now : Nat) :
    ∀ {ds : List Doc}, (∀ d ∈ ds, d.Deserializable) →
      ∃ ts, deserializeAll now ds = .ok ts ∧
        List.Forall₂ (fun d t => deserialize now d = .ok t) ds ts := by
  intro ds
  induction ds with
  | nil => exact fun _ => ⟨[], rfl, List.Forall₂.nil⟩
  | cons d ds ih =>
      intro h
      obtain ⟨pl, st, _, _, hdes⟩ := deserialize_ok (h d (List.mem_cons_self _ _)) now
      obtain ⟨ts, hts, hf⟩ := ih (fun x hx => h x (List.mem_cons_of_mem _ hx))
      refine ⟨_ :: ts, ?_, List.Forall₂.cons hdes hf⟩
      unfold deserializeAll
      rw [hdes, hts]

lemma forall₂_exists_mem_left {α β : Type} {R : α → β → Prop} :
    ∀ {l : List α} {l' : List β}, List.Forall₂ R l l' →
      ∀ b ∈ l', ∃ a ∈ l, R a b := by
  intro l l' h
  induction h with
  | nil => intro b hb; simp at hb
  | cons hab h ih =>
      intro b hb
      rcases List.mem_cons.mp hb with rfl | hb'
      · exact ⟨_, List.mem_cons_self _ _, hab⟩
      · obtain ⟨a, ha, hr⟩ := ih b hb'
        exact ⟨a, List.mem_cons_of_mem _ ha, hr⟩

/-- A `docLe`-sorted document list deserializes to a task list that is
non-decreasing in `created_at`, provided every document carries the field. -/
lemma pairwise_created_at_of_forall₂ (now : Nat) :
    ∀ {ds : List Doc} {ts : List Task},
      List.Forall₂ (fun d t => deserialize now d = .ok t) ds ts →
      (∀ d ∈ ds, d.created_at.isSome) → List.Pairwise docLeP ds →
      List.Pairwise (fun a b : Task => a.created_at ≤ b.created_at) ts := by
  intro ds ts hf
  induction hf with
  | nil => exact fun _ _ => List.Pairwise.nil
  | @cons d t ds' ts' hdt hf' ih =>
      intro hsome hpw
      rcases List.pairwise_cons.mp hpw with ⟨hd, hpw'⟩
      refine List.pairwise_cons.mpr
        ⟨?_, ih (fun x hx => hsome x (List.mem_cons_of_mem _ hx)) hpw'⟩
      intro t' ht'
      obtain ⟨d', hd'mem, hd't'⟩ := forall₂_exists_mem_left hf' t' ht'
      obtain ⟨x, hx⟩ := Option.isSome_iff_exists.mp
        (hsome d (List.mem_cons_self _ _))
      obtain ⟨y, hy⟩ := Option.isSome_iff_exists.mp
        (hsome d' (List.mem_cons_of_mem _ hd'mem))
      have hle := hd d' hd'mem
      unfold docLeP docLe at hle
      rw [hx, hy] at hle
      have hxy : x ≤ y := by simpa using hle
      rw [deserialize_created_at hdt, deserialize_created_at hd't', hx, hy]
      simpa using hxy

/-- C5: `list_tasks` filters with the exact-equality conjunction of exactly
the supplied criteria (an omitted criterion imposes no constraint), and on a
store of well-formed records returns the matching tasks in `created_at`
ascending (non-decreasing) order. -/
theorem C5_list_filter_and_order (now : Nat) (store : List Doc)
    (s : Option Status) (p : Option PriorityLevel) (dd : Option Nat)
    (h : ∀ d ∈ store, d.Deserializable ∧ d.created_at.isSome) :
    (∀ d : Doc, docMatches (buildQuery s p dd) d = true ↔
      ((∀ x, s = some x → d.status = some x.value) ∧
       (∀ x, p = some x → d.priority_level = some x.value) ∧
       (∀ x, dd = some x → d.due_date = some x))) ∧
    ∃ ts ds, svc_list_tasks now store s p dd = .ok ts ∧
      ds.Perm (store.filter (docMatches (buildQuery s p dd))) ∧
      List.Forall₂ (fun d t => deserialize now d = .ok t) ds ts ∧
      List.Pairwise (fun a b : Task => a.created_at ≤ b.created_at) ts := by
  constructor
  · intro d
    unfold docMatches buildQuery
    cases s <;> cases p <;> cases dd <;> simp [and_assoc]
  · have hperm := List.perm_insertionSort docLeP
      (store.filter (docMatches (buildQuery s p dd)))
    have hmem : ∀ d ∈ List.insertionSort docLeP
        (store.filter (docMatches (buildQuery s p dd))), d ∈ store := by
      intro d hdm
      exact (List.mem_filter.mp (hperm.mem_iff.mp hdm)).1
    obtain ⟨ts, hts, hf⟩ := @deserializeAll_ok now
      (List.insertionSort docLeP
        (store.filter (docMatches (buildQuery s p dd))))
      (fun d hdm => (h d (hmem d hdm)).1)
    refine ⟨ts, _, hts, hperm, hf, ?_⟩
    exact pairwise_created_at_of_forall₂ now hf
      (fun d hdm => (h d (hmem d hdm)).2)
      (List.sorted_insertionSort docLeP _)

theorem C5_list_filter_and_order_witness :
    (∀ d : Doc,
      docMatches (buildQuery (some .completed) none none) d = true ↔
      ((∀ x, (some Status.completed : Option Status) = some x →
          d.status = some x.value) ∧
       (∀ x, (none : Option PriorityLevel) = some x →
          d.priority_level = some x.value) ∧
       (∀ x, (none : Option Nat) = some x → d.due_date = some x))) ∧
    ∃ ts ds,
      svc_list_tasks 9
        [{ id := "b", title := "two", description := some "", due_date := none,
           priority_level := some "low", status := some "completed",
           created_at := some 5 },
         { id := "a", title := "one", description := some "", due_date := none,
           priority_level := some "high", status := some "completed",
           created_at := some 2 },
         { id := "c", title := "three", description := some "", due_date := none,
           priority_level := some "low", status := some "pending",
           created_at := some 1 }]
        (some .completed) none none = .ok ts ∧
      ds.Perm
        (List.filter (docMatches (buildQuery (some .completed) none none))
          [{ id := "b", title := "two", description := some "", due_date := none,
             priority_level := some "low", status := some "completed",
             created_at := some 5 },
           { id := "a", title := "one", description := some "", due_date := none,
             priority_level := some "high", status := some "completed",
             created_at := some 2 },
           { id := "c", title := "three", description := some "", due_date := none,
             priority_level := some "low", status := some "pending",
             created_at := some 1 }]) ∧
      List.Forall₂ (fun d t => deserialize 9 d = .ok t) ds ts ∧
      List.Pairwise (fun a b : Task => a.created_at ≤ b.created_at) ts :=
  C5_list_filter_and_order 9
    [{ id := "b", title := "two", description := some "", due_date := none,
       priority_level := some "low", status := some "completed",
       created_at := some 5 },
     { id := "a", title := "one", description := some "", due_date := none,
       priority_level := some "high", status := some "completed",
       created_at := some 2 },
     { id := "c", title := "three", description := some "", due_date := none,
       priority_level := some "low", status := some "pending",
       created_at := some 1 }]
    (some .completed) none none (by decide)

/-- `_deserialize` raises `TaskValidationError` on a stored record whose
title strips empty (when the enum fields parse). -/
lemma deserialize_error_of_empty_title {d : Doc}
    (hpl : (PriorityLevel.ofValue?
      (d.priority_level.getD PriorityLevel.medium.value)).isSome)
    (hst : (Status.ofValue? (d.status.getD Status.pending.value)).isSome)
    (h : pyStrip d.title = "") (now : Nat) :
    deserialize now d = .error .validation := by
  obtain ⟨pl, hpl'⟩ := Option.isSome_iff_exists.mp hpl
  obtain ⟨st, hst'⟩ := Option.isSome_iff_exists.mp hst
  unfold deserialize
  rw [hpl', hst']
  exact Task.init_error h _ _ _ _ _ _

/-- The in-memory validation block fails on a supplied title that strips
empty. -/
lemma applySetters_error_title {t : Task} {v : String} (hv : pyStrip v = "")
    (descr : Option String) (dd : Option Nat) (pl : Option PriorityLevel)
    (st : Option Status) :
    applySetters t (some v) descr dd pl st = .error .validation := by
  unfold applySetters Task.setTitle
  simp [hv]

/-- C6: updating an existing task with an empty or whitespace-only title
raises `TaskValidationError` and leaves the store unchanged — validation
happens on the fetched in-memory copy, before any persisted write. -/
theorem C6_update_invalid_title_no_write (now : Nat) (store : List Doc)
    (task_id : String) (d : Doc)
    (hfind : store.find? (fun x => x.id == task_id) = some d)
    (hpl : (PriorityLevel.ofValue?
      (d.priority_level.getD PriorityLevel.medium.value)).isSome)
    (hst : (Status.ofValue? (d.status.getD Status.pending.value)).isSome)
    (v : String) (hv : pyStrip v = "") (descr : Option String)
    (dd : Option Nat) (pl : Option PriorityLevel) (st : Option Status) :
    mgr_update_task now store task_id (some v) descr dd pl st
      = (.error .validation, store) := by
  have hget : svc_get_task now store task_id = (deserialize now d).map some := by
    unfold svc_get_task
    rw [hfind]
  by_cases ht : pyStrip d.title = ""
  · have hdes := deserialize_error_of_empty_title hpl hst ht now
    unfold mgr_update_task
    rw [hget, hdes]
    rfl
  · obtain ⟨plv, stv, _, _, hdes⟩ := deserialize_ok ⟨ht, hpl, hst⟩ now
    unfold mgr_update_task
    rw [hget, hdes]
    simp [Except.map, applySetters_error_title hv]

theorem C6_update_invalid_title_no_write_witness :
    mgr_update_task 0
      [{ id := "a", title := "t", description := some "", due_date := none,
         priority_level := some "medium", status := some "pending",
         created_at := some 0 }] "a" (some " ") none none none none
      = (.error .validation,
         [{ id := "a", title := "t", description := some "", due_date := none,
            priority_level := some "medium", status := some "pending",
            created_at := some 0 }]) :=
  C6_update_invalid_title_no_write 0
    [{ id := "a", title := "t", description := some "", due_date := none,
       priority_level := some "medium", status := some "pending",
       created_at := some 0 }] "a"
    { id := "a", title := "t", description := some "", due_date := none,
      priority_level := some "medium", status := some "pending",
      created_at := some 0 }
    (by decide) (by decide) (by decide) " " (by decide) none none none none

/-- `find_one_and_update` with a `$set` built from the five optional update
fields: every document keeps its `_id` and `created_at`, every omitted field
is untouched, and every document whose id differs from the target is
unchanged. -/
lemma find_one_and_update_frame (task_id : String)
    (title description : Option String) (dd : Option Nat)
    (pl : Option PriorityLevel) (st : Option Status) :
    ∀ store : List Doc, List.Forall₂ (fun d d' : Doc =>
      d'.id = d.id ∧ d'.created_at = d.created_at ∧
      (title = none → d'.title = d.title) ∧
      (description = none → d'.description = d.description) ∧
      (dd = none → d'.due_date = d.due_date) ∧
      (pl = none → d'.priority_level = d.priority_level) ∧
      (st = none → d'.status = d.status) ∧
      (d.id ≠ task_id → d' = d))
      store
      (find_one_and_update task_id (buildUpdates title description dd pl st)
        store).2 := by
  intro store
  induction store with
  | nil => exact List.Forall₂.nil
  | cons d ds ih =>
      unfold find_one_and_update
      cases hc : (d.id == task_id) with
      | true =>
          simp only [hc, if_true]
          refine List.Forall₂.cons
            ⟨rfl, rfl, fun h => by subst h; rfl, fun h => by subst h; rfl,
             fun h => by subst h; rfl, fun h => by subst h; rfl,
             fun h => by subst h; rfl,
             fun hne => absurd (by simpa using hc) hne⟩
            (List.forall₂_same.mpr fun x _ =>
              ⟨rfl, rfl, fun _ => rfl, fun _ => rfl, fun _ => rfl, fun _ => rfl,
               fun _ => rfl, fun _ => rfl⟩)
      | false =>
          simp only [hc, if_false]
          exact List.Forall₂.cons
            ⟨rfl, rfl, fun _ => rfl, fun _ => rfl, fun _ => rfl, fun _ => rfl,
             fun _ => rfl, fun _ => rfl⟩ ih

/-- C7: a service update changes only the explicitly supplied fields of the
stored record; every omitted field, every other record, and in particular
`_id` and `created_at` (never part of the `$set`) are left untouched. -/
theorem C7_update_only_supplied_fields (now : Nat) (store : List Doc)
    (task_id : String) (title description : Option String) (dd : Option Nat)
    (pl : Option PriorityLevel) (st : Option Status) :
    List.Forall₂ (fun d d' : Doc =>
      d'.id = d.id ∧ d'.created_at = d.created_at ∧
      (title = none → d'.title = d.title) ∧
      (description = none → d'.description = d.description) ∧
      (dd = none → d'.due_date = d.due_date) ∧
      (pl = none → d'.priority_level = d.priority_level) ∧
      (st = none → d'.status = d.status) ∧
      (d.id ≠ task_id → d' = d))
      store
      (svc_update_task now store task_id title description dd pl st).2 := by
  unfold svc_update_task
  by_cases he : (buildUpdates title description dd pl st).isEmpty
  · rw [if_pos he]
    exact List.forall₂_same.mpr fun x _ =>
      ⟨rfl, rfl, fun _ => rfl, fun _ => rfl, fun _ => rfl, fun _ => rfl,
       fun _ => rfl, fun _ => rfl⟩
  · rw [if_neg he]
    have hfrm := find_one_and_update_frame task_id title description dd pl st store
    rcases hfou : find_one_and_update task_id
      (buildUpdates title description dd pl st) store with ⟨r, store'⟩
    rw [hfou] at hfrm
    cases r <;> exact hfrm

theorem C7_update_only_supplied_fields_witness :
    List.Forall₂ (fun d d' : Doc =>
      d'.id = d.id ∧ d'.created_at = d.created_at ∧
      ((some "new" : Option String) = none → d'.title = d.title) ∧
      ((none : Option String) = none → d'.description = d.description) ∧
      ((none : Option Nat) = none → d'.due_date = d.due_date) ∧
      ((none : Option PriorityLevel) = none →
        d'.priority_level = d.priority_level) ∧
      ((none : Option Status) = none → d'.status = d.status) ∧
      (d.id ≠ "a" → d' = d))
      [{ id := "a", title := "t", description := some "", due_date := none,
         priority_level := some "medium", status := some "pending",
         created_at := some 0 },
       { id := "b", title := "u", description := some "", due_date := none,
         priority_level := some "low", status := some "pending",
         created_at := some 1 }]
      (svc_update_task 0
        [{ id := "a", title := "t", description := some "", due_date := none,
           priority_level := some "medium", status := some "pending",
           created_at := some 0 },
         { id := "b", title := "u", description := some "", due_date := none,
           priority_level := some "low", status := some "pending",
           created_at := some 1 }]
        "a" (some "new") none none none none).2 :=
  C7_update_only_supplied_fields 0
    [{ id := "a", title := "t", description := some "", due_date := none,
       priority_level := some "medium", status := some "pending",
       created_at := some 0 },
     { id := "b", title := "u", description := some "", due_date := none,
       priority_level := some "low", status := some "pending",
       created_at := some 1 }]
    "a" (some "new") none none none none

/-- C8 counterexample: the claim quantifies over every record containing at
least `_id` and `title`, but a record whose title is whitespace-only cannot
be deserialized at all (the `Task` constructor raises ValidationError), so
deserializing it does not yield any task, let alone one with description
`""`. -/
theorem C8_counterexample :
    ¬ ∃ t, deserialize 0
        { id := "a", title := " ", description := none, due_date := none,
          priority_level := none, status := none, created_at := some 0 }
        = .ok t ∧ t.description = "" := by
  rintro ⟨t, ht, -⟩
  have hne : deserialize 0
      { id := "a", title := " ", description := none, due_date := none,
        priority_level := none, status := none, created_at := some 0 }
      = .error .validation := rfl
  rw [hne] at ht
  exact absurd ht (by simp)

/-- C8 (amended): for every record containing `_id` and a title that trims
non-empty (and whose enum fields, when present, parse), deserialization is
permissive about the other fields: missing `description` defaults to `""`,
missing `priority_level` to medium, missing `status` to pending, missing
`created_at` to the current time; `id` is taken verbatim and `title` trimmed
from the record. -/
theorem C8_deserialize_defaults (now : Nat) (d : Doc)
    (htitle : pyStrip d.title ≠ "")
    (hpl : (PriorityLevel.ofValue?
      (d.priority_level.getD PriorityLevel.medium.value)).isSome)
    (hst : (Status.ofValue? (d.status.getD Status.pending.value)).isSome) :
    ∃ t, deserialize now d = .ok t ∧ t.id = d.id ∧ t.title = pyStrip d.title ∧
      (d.description = none → t.description = "") ∧
      (d.priority_level = none → t.priority_level = .medium) ∧
      (d.status = none → t.status = .pending) ∧
      (d.created_at = none → t.created_at = now) ∧
      (∀ c, d.created_at = some c → t.created_at = c) := by
  obtain ⟨pl, st, hpl', hst', hdes⟩ := deserialize_ok ⟨htitle, hpl, hst⟩ now
  refine ⟨_, hdes, rfl, rfl, ?_, ?_, ?_, ?_, ?_⟩
  · intro h
    rw [h]
    rfl
  · intro h
    rw [h] at hpl'
    simp only [Option.getD_none] at hpl'
    rw [show PriorityLevel.ofValue? PriorityLevel.medium.value
        = some PriorityLevel.medium from rfl] at hpl'
    injection hpl' with h3
    show pl = PriorityLevel.medium
    rw [← h3]
  · intro h
    rw [h] at hst'
    simp only [Option.getD_none] at hst'
    rw [show Status.ofValue? Status.pending.value = some Status.pending
        from rfl] at hst'
    injection hst' with h3
    show st = Status.pending
    rw [← h3]
  · intro h
    rw [h]
    rfl
  · intro c h
    rw [h]
    rfl

theorem C8_deserialize_defaults_witness :
    ∃ t, deserialize 5
        { id := "a", title := "t", description := none, due_date := none,
          priority_level := none, status := none, created_at := none }
        = .ok t ∧
      t.id = "a" ∧
      t.title = pyStrip "t" ∧
      ((none : Option String) = none → t.description = "") ∧
      ((none : Option String) = none → t.priority_level = .medium) ∧
      ((none : Option String) = none → t.status = .pending) ∧
      ((none : Option Nat) = none → t.created_at = 5) ∧
      (∀ c, (none : Option Nat) = some c → t.created_at = c) :=
  C8_deserialize_defaults 5
    { id := "a", title := "t", description := none, due_date := none,
      priority_level := none, status := none, created_at := none }
    (by decide) (by decide) (by decide)

/-- C9 counterexample: on a store whose record has a whitespace-only title,
`complete_task` first performs the `$set` write and only then fails while
deserializing the post-image, whereas `update_task(status=completed)` fails
during its initial fetch, before writing — so the two final store states
differ, against the claim that they agree for every store state. -/
theorem C9_counterexample :
    (mgr_complete_task 0
      [{ id := "a", title := " ", description := some "", due_date := none,
         priority_level := some "medium", status := some "pending",
         created_at := some 0 }] "a").2
    ≠ (mgr_update_task 0
      [{ id := "a", title := " ", description := some "", due_date := none,
         priority_level := some "medium", status := some "pending",
         created_at := some 0 }] "a" none none none none
        (some .completed)).2 := by
  decide

/-- `find_one_and_update` is the identity and returns no document when no
stored id matches. -/
lemma fou_of_find?_none (task_id : String) (u : Updates) :
    ∀ store : List Doc, (∀ x ∈ store, ¬((x.id == task_id) = true)) →
      find_one_and_update task_id u store = (none, store) := by
  intro store
  induction store with
  | nil => intro _; rfl
  | cons d ds ih =>
      intro hall
      unfold find_one_and_update
      rw [if_neg (hall d (List.mem_cons_self _ _)),
        ih (fun x hx => hall x (List.mem_cons_of_mem _ hx))]

/-- C9 (amended): on every store whose records are all deserializable,
`complete_task(id)` and `update_task(id, status=completed)` are equivalent —
same final store, same returned task, and both raise NotFoundError (only)
when the id is absent. -/
theorem C9_complete_equiv_update (now : Nat) (store : List Doc)
    (task_id : String) (h : ∀ d ∈ store, d.Deserializable) :
    mgr_complete_task now store task_id =
      mgr_update_task now store task_id none none none none (some .completed) ∧
    (store.find? (fun d => d.id == task_id) = none →
      mgr_complete_task now store task_id = (.error .notFound, store)) := by
  cases hf : store.find? (fun d => d.id == task_id) with
  | none =>
      have hget : svc_get_task now store task_id = .ok none := by
        unfold svc_get_task
        rw [hf]
      have hall := List.find?_eq_none.mp hf
      have hfou := fou_of_find?_none task_id
        (buildUpdates none none none none (some .completed)) store hall
      have hcomp : mgr_complete_task now store task_id
          = (.error .notFound, store) := by
        unfold mgr_complete_task svc_update_task
        rw [if_neg (by decide), hfou]
      refine ⟨?_, fun _ => hcomp⟩
      rw [hcomp]
      unfold mgr_update_task
      rw [hget]
  | some d =>
      obtain ⟨pl, st, _, _, hdes⟩ :=
        deserialize_ok (h d (List.mem_of_find?_eq_some hf)) now
      have hget : svc_get_task now store task_id =
          .ok (some ({ id := d.id, title := pyStrip d.title,
                       description := pyStrip (d.description.getD ""),
                       due_date := d.due_date, priority_level := pl,
                       status := st,
                       created_at := d.created_at.getD now } : Task)) := by
        unfold svc_get_task
        rw [hf]
        show (deserialize now d).map some = _
        rw [hdes]
        rfl
      refine ⟨?_, fun hfn => absurd hfn (by simp)⟩
      unfold mgr_complete_task mgr_update_task
      rw [hget]
      generalize svc_update_task now store task_id none none none none
        (some Status.completed) = rs
      obtain ⟨r, store'⟩ := rs
      cases r with
      | error e => rfl
      | ok o => cases o <;> rfl

theorem C9_complete_equiv_update_witness :
    (mgr_complete_task 0
      [{ id := "a", title := "t", description := some "", due_date := none,
         priority_level := some "medium", status := some "pending",
         created_at := some 0 }] "a" =
      mgr_update_task 0
        [{ id := "a", title := "t", description := some "", due_date := none,
           priority_level := some "medium", status := some "pending",
           created_at := some 0 }] "a" none none none none
        (some .completed)) ∧
    (List.find? (fun d : Doc => d.id == "a")
      [{ id := "a", title := "t", description := some "", due_date := none,
         priority_level := some "medium", status := some "pending",
         created_at := some 0 }] = none →
      mgr_complete_task 0
        [{ id := "a", title := "t", description := some "", due_date := none,
           priority_level := some "medium", status := some "pending",
           created_at := some 0 }] "a" =
        (.error .notFound,
         [{ id := "a", title := "t", description := some "", due_date := none,
            priority_level := some "medium", status := some "pending",
            created_at := some 0 }])) :=
  C9_complete_equiv_update 0
    [{ id := "a", title := "t", description := some "", due_date := none,
       priority_level := some "medium", status := some "pending",
       created_at := some 0 }] "a" (by decide)

/-- `find_one_and_update` on a store whose first id-match is `d`: the
returned pre-projection is `applySet u d`, and the written store still finds
the updated document first. -/
lemma fou_of_find?_some (task_id : String) (u : Updates) :
    ∀ store d, store.find? (fun x => x.id == task_id) = some d →
      (find_one_and_update task_id u store).1 = some (applySet u d) ∧
      (find_one_and_update task_id u store).2.find? (fun x => x.id == task_id)
        = some (applySet u d) := by
  intro store
  induction store with
  | nil => intro d h; simp at h
  | cons a as ih =>
      intro d h
      cases hc : (a.id == task_id) with
      | true =>
          have hcons : List.find? (fun x => x.id == task_id) (a :: as)
              = some a := List.find?_cons_of_pos _ hc
          rw [hcons] at h
          injection h with h'
          subst h'
          unfold find_one_and_update
          simp only [hc, if_true]
          exact ⟨trivial, List.find?_cons_of_pos _
            (show ((applySet u a).id == task_id) = true from hc)⟩
      | false =>
          have hcons : List.find? (fun x => x.id == task_id) (a :: as)
              = List.find? (fun x => x.id == task_id) as :=
            List.find?_cons_of_neg _ (by simp [hc])
          rw [hcons] at h
          obtain ⟨h1, h2⟩ := ih d h
          unfold find_one_and_update
          simp only [hc, if_false]
          refine ⟨h1, ?_⟩
          have hcons2 : List.find? (fun x => x.id == task_id)
              (a :: (find_one_and_update task_id u as).2)
              = List.find? (fun x => x.id == task_id)
                  (find_one_and_update task_id u as).2 :=
            List.find?_cons_of_neg _ (by simp [hc])
          exact hcons2.trans h2

/-- The in-memory validation block succeeds on a title that strips
non-empty, trimming title and description on the in-memory copy. -/
lemma applySetters_ok_title_descr {t : Task} {v : String}
    (hv : pyStrip v ≠ "") (w : String) :
    applySetters t (some v) (some w) none none none
      = .ok { t with title := pyStrip v, description := pyStrip w } := by
  unfold applySetters Task.setTitle Task.setDescription
  simp [hv]

/-- C10: updating an existing task with a title/description that carry
surrounding whitespace persists both verbatim in the stored record, while
the returned `Task` carries the trimmed values — the trimming invariant
holds on `Task` objects but not on records written through the update
path. -/
theorem C10_update_verbatim_store_trimmed_return (now : Nat)
    (store : List Doc) (task_id : String) (d : Doc)
    (hfind : store.find? (fun x => x.id == task_id) = some d)
    (hd : d.Deserializable) (v w : String) (hv : pyStrip v ≠ "") :
    ∃ t store',
      mgr_update_task now store task_id (some v) (some w) none none none
        = (.ok t, store') ∧
      t.title = pyStrip v ∧ t.description = pyStrip w ∧
      ∃ d', store'.find? (fun x => x.id == task_id) = some d' ∧
        d'.title = v ∧ d'.description = some w ∧
        d'.id = d.id ∧ d'.created_at = d.created_at ∧
        d'.due_date = d.due_date ∧ d'.priority_level = d.priority_level ∧
        d'.status = d.status := by
  obtain ⟨pl0, st0, _, _, hdes0⟩ :=
    deserialize_ok hd now
  have hget : svc_get_task now store task_id =
      .ok (some ({ id := d.id, title := pyStrip d.title,
                   description := pyStrip (d.description.getD ""),
                   due_date := d.due_date, priority_level := pl0,
                   status := st0,
                   created_at := d.created_at.getD now } : Task)) := by
    unfold svc_get_task
    rw [hfind]
    show (deserialize now d).map some = _
    rw [hdes0]
    rfl
  have hd' : (applySet (buildUpdates (some v) (some w) none none none) d).Deserializable := by
    obtain ⟨-, hpl, hst⟩ := hd
    exact ⟨hv, hpl, hst⟩
  obtain ⟨pl1, st1, _, _, hdes1⟩ := deserialize_ok hd' now
  obtain ⟨hfou1, hfou2⟩ := fou_of_find?_some task_id
    (buildUpdates (some v) (some w) none none none) store d hfind
  rcases hfp : find_one_and_update task_id
    (buildUpdates (some v) (some w) none none none) store with ⟨r, store2⟩
  rw [hfp] at hfou1 hfou2
  have hsvc : svc_update_task now store task_id (some v) (some w)
      none none none =
      (.ok (some ({ id := d.id, title := pyStrip v,
                    description := pyStrip w, due_date := d.due_date,
                    priority_level := pl1, status := st1,
                    created_at := d.created_at.getD now } : Task)),
       store2) := by
    unfold svc_update_task
    rw [if_neg (by simp [Updates.isEmpty, buildUpdates]), hfp]
    rcases hfou1 with rfl
    show ((deserialize now
      (applySet (buildUpdates (some v) (some w) none none none) d)).map some,
        store2) = _
    rw [hdes1]
    rfl
  refine ⟨{ id := d.id, title := pyStrip v, description := pyStrip w,
            due_date := d.due_date, priority_level := pl1, status := st1,
            created_at := d.created_at.getD now }, store2, ?_, rfl, rfl,
    applySet (buildUpdates (some v) (some w) none none none) d,
    hfou2, rfl, rfl, rfl, rfl, rfl, rfl, rfl⟩
  unfold mgr_update_task
  simp only [hget, applySetters_ok_title_descr hv w, hsvc]

theorem C10_update_verbatim_store_trimmed_return_witness :
    ∃ t store',
      mgr_update_task 0
        [{ id := "a", title := "t", description := some "", due_date := none,
           priority_level := some "medium", status := some "pending",
           created_at := some 0 }] "a" (some "  new title ") (some " memo ")
        none none none
        = (.ok t, store') ∧
      t.title = pyStrip "  new title " ∧ t.description = pyStrip " memo " ∧
      ∃ d', store'.find? (fun x => x.id == "a") = some d' ∧
        d'.title = "  new title " ∧ d'.description = some " memo " ∧
        d'.id = "a" ∧ d'.created_at = some 0 ∧
        d'.due_date = none ∧ d'.priority_level = some "medium" ∧
        d'.status = some "pending" :=
  C10_update_verbatim_store_trimmed_return 0
    [{ id := "a", title := "t", description := some "", due_date := none,
       priority_level := some "medium", status := some "pending",
       created_at := some 0 }] "a"
    { id := "a", title := "t", description := some "", due_date := none,
      priority_level := some "medium", status := some "pending",
      created_at := some 0 }
    (by decide) (by decide) "  new title " " memo " (by decide)

end TaskManagerModel
